import Mathlib

/-!
Verification development for the rust-veracrypt repository (src/lib.rs).

Byte buffers are modelled as `List Nat` (one entry per byte), machine
integers as `Nat` or `Int` with explicit two-power reductions where the
source performs wrapping casts.  The cryptographic primitives the source
delegates to external crates (PBKDF2-HMAC-SHA-512 and AES-256-XTS) enter
the model as abstract function parameters: the claims under study concern
which arguments the source passes to them and how their outputs are
routed, not their internals.  CRC-32 ISO-HDLC, whose concrete values the
header checks compare against, is modelled in full.  Rust panics
(unwrap on an Err, integer division by zero, out-of-range slice indexing)
are modelled as a distinguished `panicked` result.
-/

/-- One shift-and-conditional-xor round of the reflected CRC-32 with
polynomial 0xEDB88320, the ISO-HDLC polynomial selected in src/lib.rs by
the constant CRC_32_ISO_HDLC of the crc crate. -/
def crcRound (c : Nat) : Nat :=
  if c % 2 = 1 then Nat.xor (c / 2) 0xEDB88320 else c / 2

/-- Iterated CRC rounds. -/
def crcRounds : Nat → Nat → Nat
  | 0, c => c
  | n + 1, c => crcRounds n (crcRound c)

/-- Running CRC-32 state after absorbing a byte list, starting from
state c: each byte is xored into the state and followed by eight
polynomial rounds. -/
def crcFold (c : Nat) (data : List Nat) : Nat :=
  data.foldl (fun a b => crcRounds 8 (Nat.xor a (b % 256))) c

/-- CRC-32 ISO-HDLC of a byte list: initial state 0xFFFFFFFF, reflected
polynomial 0xEDB88320, final xor 0xFFFFFFFF.  Models
Crc::checksum from src/lib.rs line 12. -/
def crc32 (data : List Nat) : Nat :=
  Nat.xor (crcFold 0xFFFFFFFF data) 0xFFFFFFFF

/-- Big-endian 4-byte encoding of a 32-bit value, modelling
u32::to_be_bytes. -/
def be32 (n : Nat) : List Nat :=
  [n / 2 ^ 24 % 256, n / 2 ^ 16 % 256, n / 2 ^ 8 % 256, n % 256]

/-- Big-endian decoding of len bytes of b starting at offset off,
modelling how binrw with the big attribute reads an unsigned field. -/
def readBE (b : List Nat) (off len : Nat) : Nat :=
  ((b.drop off).take len).foldl (fun acc byte => acc * 256 + byte % 256) 0

/-- The ASCII bytes of the magic string VERA checked at header
offset 64 (src/lib.rs line 74). -/
def veraMagic : List Nat := [86, 69, 82, 65]

/-- The error enum of src/lib.rs lines 16-26. -/
inductive VcError where
  | fileOpenFailure
  | invalidVolume
  | invalidKey
  | invalidHeader
deriving DecidableEq

/-- The decoded VolumeHeader record of src/lib.rs lines 212-231.  Field
offsets in the 512-byte buffer follow the binrw layout: salt at 0,
magic at 64, version at 68, minimum_program_version at 70,
master_key_crc at 72, then 16 pad bytes, hidden_volume_size at 92,
volume_size at 100, master_key_scope_offset at 108,
master_key_scope_size at 116, flags at 124, sector_size at 128, then
120 pad bytes, header_checksum at 252, master_keys at 256. -/
structure VolumeHeader where
  salt : List Nat
  version : Nat
  minimumProgramVersion : Nat
  masterKeyCrc : Nat
  hiddenVolumeSize : Nat
  volumeSize : Nat
  masterKeyScopeOffset : Nat
  masterKeyScopeSize : Nat
  flags : Nat
  sectorSize : Nat
  headerChecksum : Nat
  masterKeys : List Nat
deriving DecidableEq

/-- The field extraction part of the binrw decode: reads every field
big-endian at its layout offset from the 512-byte decrypted buffer. -/
def decodeUnchecked (b : List Nat) : VolumeHeader :=
  { salt := b.take 64
  , version := readBE b 68 2
  , minimumProgramVersion := readBE b 70 2
  , masterKeyCrc := readBE b 72 4
  , hiddenVolumeSize := readBE b 92 8
  , volumeSize := readBE b 100 8
  , masterKeyScopeOffset := readBE b 108 8
  , masterKeyScopeSize := readBE b 116 8
  , flags := readBE b 124 4
  , sectorSize := readBE b 128 4
  , headerChecksum := readBE b 252 4
  , masterKeys := (b.drop 256).take 64 }

/-- VolumeHeader::read via binrw (src/lib.rs line 90): the only fallible
step on a full 512-byte buffer is the magic assertion at offset 64;
all remaining fields are fixed-width reads that always succeed. -/
def VolumeHeader.decode (b : List Nat) : Option VolumeHeader :=
  if (b.drop 64).take 4 = veraMagic then some (decodeUnchecked b) else none

/-- The mounted volume (src/lib.rs lines 32-36): the parsed header, the
two AES-256 keys of the data-area XTS engine (built from the master
keys), and the backing stream position. -/
structure MountedVolume where
  header : VolumeHeader
  key1 : List Nat
  key2 : List Nat
  pos : Nat
deriving DecidableEq

/-- Result of a fallible operation that can also panic: Rust Ok,
Rust Err, or a Rust panic (unwrap on Err, division by zero). -/
inductive MRes (A : Type) where
  | ok : A → MRes A
  | err : VcError → MRes A
  | panicked : MRes A
deriving DecidableEq

/-- True exactly on an ok result. -/
def MRes.isOk {A : Type} : MRes A → Bool
  | .ok _ => true
  | _ => false

/-- UnmountedVolume::mount of src/lib.rs lines 47-111.
Parameters abstract the external crates:
pb models pbkdf2::pbkdf2 with Hmac-Sha512 (password, salt, rounds,
output length in bytes); xd models Xts128::decrypt_area of an engine
built from two 32-byte keys (key1, key2, buffer, data unit size,
starting data unit index); fsNew models the construction
fatfs::FileSystem::new over the buffered block device, whose failure
the source unwraps (line 108), hence the panicked branch.
Steps in source order: rewind, read 512 header bytes (failure:
InvalidVolume), derive the key from the 64-byte salt with 500000
rounds, split it 0..32 / 32..64 into the header XTS keys, decrypt
bytes 64..512 in place as one 448-byte data unit with index 0, check
magic then both CRC fields (each failure: InvalidKey), binrw-decode
(failure: InvalidHeader), build the data XTS keys from the master
keys, seek to master_key_scope_offset, construct the filesystem. -/
def mount (pb : List Nat → List Nat → Nat → Nat → List Nat)
    (xd : List Nat → List Nat → List Nat → Nat → Nat → List Nat)
    (fsNew : MountedVolume → Option Nat)
    (disk : List Nat) (password : List Nat) : MRes (Nat × MountedVolume) :=
  if disk.length < 512 then .err .invalidVolume
  else
    let hdr := disk.take 512
    let salt := hdr.take 64
    let key := pb password salt 500000 64
    let decrypted := salt ++ xd (key.take 32) (key.drop 32) (hdr.drop 64) 448 0
    if (decrypted.drop 64).take 4 ≠ veraMagic then .err .invalidKey
    else if (decrypted.drop 72).take 4 ≠ be32 (crc32 ((decrypted.drop 256).take 256)) then
      .err .invalidKey
    else if (decrypted.drop 252).take 4 ≠ be32 (crc32 ((decrypted.drop 64).take 188)) then
      .err .invalidKey
    else
      match VolumeHeader.decode decrypted with
      | none => .err .invalidHeader
      | some header =>
        let vol : MountedVolume :=
          { header := header
          , key1 := header.masterKeys.take 32
          , key2 := header.masterKeys.drop 32
          , pos := header.masterKeyScopeOffset }
        match fsNew vol with
        | none => .panicked
        | some fsId => .ok (fsId, vol)

/-- The decrypted 512-byte header buffer exactly as mount computes it:
the plaintext salt followed by the XTS decryption of bytes 64..512. -/
def decryptedHeaderBytes (pb : List Nat → List Nat → Nat → Nat → List Nat)
    (xd : List Nat → List Nat → List Nat → Nat → Nat → List Nat)
    (disk : List Nat) (password : List Nat) : List Nat :=
  (disk.take 512).take 64 ++
    xd ((pb password ((disk.take 512).take 64) 500000 64).take 32)
      ((pb password ((disk.take 512).take 64) 500000 64).drop 32)
      ((disk.take 512).drop 64) 448 0

/-- The spec wording of the header path (spec sections 4.B and 4.D):
the salt is bytes 0..64 of the header, PBKDF2 derives exactly 64 bytes
at exactly 500000 iterations, the derived key is split positionally at
32, and bytes 64..512 are decrypted as a single 448-byte XTS data unit
with starting data-unit index 0.  The continuation after decryption is
stated identically to mount. -/
def mountSpec (pb : List Nat → List Nat → Nat → Nat → List Nat)
    (xd : List Nat → List Nat → List Nat → Nat → Nat → List Nat)
    (fsNew : MountedVolume → Option Nat)
    (disk : List Nat) (password : List Nat) : MRes (Nat × MountedVolume) :=
  if disk.length < 512 then .err .invalidVolume
  else
    let salt := disk.take 64
    let derived := pb password salt 500000 64
    let decrypted := salt ++ xd (derived.take 32) (derived.drop 32) ((disk.drop 64).take 448) 448 0
    if (decrypted.drop 64).take 4 ≠ veraMagic then .err .invalidKey
    else if (decrypted.drop 72).take 4 ≠ be32 (crc32 ((decrypted.drop 256).take 256)) then
      .err .invalidKey
    else if (decrypted.drop 252).take 4 ≠ be32 (crc32 ((decrypted.drop 64).take 188)) then
      .err .invalidKey
    else
      match VolumeHeader.decode decrypted with
      | none => .err .invalidHeader
      | some header =>
        let vol : MountedVolume :=
          { header := header
          , key1 := header.masterKeys.take 32
          , key2 := header.masterKeys.drop 32
          , pos := header.masterKeyScopeOffset }
        match fsNew vol with
        | none => .panicked
        | some fsId => .ok (fsId, vol)

/-- The three validation conditions mount checks on the decrypted
header buffer: magic, the CRC over bytes 256..512 against the
big-endian field at 72..76, and the CRC over bytes 64..252 against the
big-endian field at 252..256. -/
def headerChecks (dh : List Nat) : Prop :=
  (dh.drop 64).take 4 = veraMagic ∧
    (dh.drop 72).take 4 = be32 (crc32 ((dh.drop 256).take 256)) ∧
    (dh.drop 252).take 4 = be32 (crc32 ((dh.drop 64).take 188))

instance (dh : List Nat) : Decidable (headerChecks dh) := by
  unfold headerChecks; infer_instance

/-- Output of a successful MountedVolume::read: the Ok value
(bytes_written), the caller buffer after the copies, the backing
position after the loop, and the trace of decrypt_area invocations as
(data unit size, starting data unit index) pairs in call order. -/
structure ReadOut where
  retval : Nat
  buf : List Nat
  pos : Nat
  calls : List (Nat × Nat)
deriving DecidableEq

/-- Result of MountedVolume::read: success, an I/O error propagated
with the question-mark operator, or a panic. -/
inductive RRes where
  | ok : ReadOut → RRes
  | ioErr : RRes
  | panicked : RRes
deriving DecidableEq

/-- Rust slice assignment dst[off .. off + src.len()] = src, assuming
the range fits (every use below guards or satisfies the bound). -/
def listCopy (dst : List Nat) (off : Nat) (src : List Nat) : List Nat :=
  dst.take off ++ src ++ dst.drop (off + src.length)

/-- The sector loop of MountedVolume::read (src/lib.rs lines 135-174),
over the remaining loop counter values (the Rust loop runs i over
0..data_units_to_read), with backing position pos, bytes_written bw,
caller buffer buf and decrypt-call trace calls.  Each iteration reads
512 bytes at the current position (an incomplete read is an I/O
error), then decrypts the scratch buffer with data unit size
sector_size and starting index current_pos / sector_size, where
current_pos is the position captured before the loop; a zero
sector_size makes that division panic.  The copy into the caller
buffer follows the match on i: first data unit, last data unit, or
middle data unit; out-of-range slice indexing is a panic.  In the
source decrypt_area works in place and preserves the buffer length;
the abstract parameter dec receives (sector size, start index, buffer)
and returns the decrypted buffer. -/
def readLoop (dec : Nat → Nat → List Nat → List Nat) (disk : List Nat)
    (sectorSize cp ro total readLen n : Nat) :
    List Nat → Nat → Nat → List Nat → List (Nat × Nat) → RRes
  | [], pos, bw, buf, calls => .ok ⟨bw, buf, pos, calls⟩
  | i :: rest, pos, bw, buf, calls =>
    if disk.length < pos + 512 then .ioErr
    else
      let temp := (disk.drop pos).take 512
      if sectorSize = 0 then .panicked
      else
        let temp2 := dec sectorSize (cp / sectorSize) temp
        let calls2 := calls ++ [(sectorSize, cp / sectorSize)]
        if i = 0 then
          let num := min (512 - ro) readLen
          readLoop dec disk sectorSize cp ro total readLen n rest (pos + 512) (bw + num)
            (listCopy buf 0 ((temp2.drop ro).take num)) calls2
        else if i = n - 1 then
          let num := total % 512
          if readLen < num then .panicked
          else
            readLoop dec disk sectorSize cp ro total readLen n rest (pos + 512) (bw + num)
              (listCopy buf (readLen - num) (temp2.take num)) calls2
        else
          if buf.length < bw + 512 then .panicked
          else
            readLoop dec disk sectorSize cp ro total readLen n rest (pos + 512) bw
              (listCopy buf bw (temp2.take 512)) calls2

/-- MountedVolume::read (src/lib.rs lines 115-177): from the current
backing position it computes the enclosing data unit boundary (the
DATA_UNIT_SIZE constant is 512 independent of the header sector size),
the number of data units to read, seeks back to the boundary, and runs
the sector loop for i in 0..data_units_to_read. -/
def readImpl (dec : Nat → Nat → List Nat → List Nat) (sectorSize : Nat)
    (disk : List Nat) (pos0 : Nat) (buf : List Nat) : RRes :=
  let base := pos0 / 512 * 512
  let total := pos0 + buf.length - base
  let d := total / 512
  let r := total % 512
  let n := if r > 0 then d + 1 else d
  let ro := pos0 - base
  readLoop dec disk sectorSize pos0 ro total buf.length n (List.range n) base 0 buf []

/-- The backing store state a mounted volume owns: its byte contents
and the stream position. -/
structure VolState where
  disk : List Nat
  pos : Nat
deriving DecidableEq

/-- MountedVolume::write (src/lib.rs lines 181-185): the body ignores
the buffer, performs no I/O, and returns Ok(1). -/
def writeImpl (st : VolState) (_buf : List Nat) : Nat × VolState := (1, st)

/-- The three variants of std::io::SeekFrom: Start carries a u64,
End and Current carry an i64. -/
inductive SeekWhence where
  | start : Nat → SeekWhence
  | fromEnd : Int → SeekWhence
  | current : Int → SeekWhence
deriving DecidableEq

/-- Reinterpretation cast u64 to i64 (Rust as-cast). -/
def asI64 (x : Nat) : Int :=
  if x < 2 ^ 63 then (x : Int) else (x : Int) - 2 ^ 64

/-- Reinterpretation cast of an integer into u64 (Rust as-cast and
release-mode wrapping arithmetic). -/
def asU64 (x : Int) : Nat :=
  (x % (2 ^ 64 : Int)).toNat

/-- MountedVolume::seek (src/lib.rs lines 192-210): computes the new
backing position from master_key_scope_offset (offset) and
master_key_scope_size (size) and the current backing position pos,
seeks there, and returns the result minus offset.  Arithmetic follows
the source casts with release-mode wrapping.  Returns (returned
logical position, new backing position). -/
def seekImpl (offset size pos : Nat) (w : SeekWhence) : Nat × Nat :=
  let newPos : Nat :=
    match w with
    | .start n => (offset + n) % 2 ^ 64
    | .fromEnd n => asU64 (asI64 ((offset + size) % 2 ^ 64) - n)
    | .current n => asU64 (asI64 pos + n)
  (asU64 ((newPos : Int) - (offset : Int)), newPos)

/-- The backing position the claim assigns to each seek variant:
Start n goes to offset + n, End n to offset + size - n, Current n to
pos + n. -/
def seekTarget (offset size pos : Nat) : SeekWhence → Int
  | .start n => (offset : Int) + n
  | .fromEnd n => (offset : Int) + size - n
  | .current n => (pos : Int) + n

/-- Range conditions under which the u64 and i64 casts in seekImpl are
value-preserving: every intermediate quantity fits in 0 .. 2 ^ 63 and
the target does not precede the data-area start. -/
def seekPre (offset size pos : Nat) : SeekWhence → Prop
  | .start n => offset + n < 2 ^ 63
  | .fromEnd n =>
      offset + size < 2 ^ 63 ∧ (offset : Int) ≤ (offset : Int) + size - n ∧
        (offset : Int) + size - n < 2 ^ 63
  | .current n =>
      pos < 2 ^ 63 ∧ (offset : Int) ≤ (pos : Int) + n ∧ (pos : Int) + n < 2 ^ 63

instance (offset size pos : Nat) (w : SeekWhence) : Decidable (seekPre offset size pos w) := by
  cases w <;> exact (by unfold seekPre; infer_instance)

/-- Trivial stand-in for the abstract PBKDF2 parameter, used when a
theorem is instantiated at a concrete input. -/
def pbId : List Nat → List Nat → Nat → Nat → List Nat :=
  fun _ _ _ _ => List.replicate 64 0

/-- Identity stand-in for the abstract XTS decrypt-area parameter of
mount: the buffer is returned unchanged, so a disk is its own
plaintext. -/
def xdId : List Nat → List Nat → List Nat → Nat → Nat → List Nat :=
  fun _ _ b _ _ => b

/-- Identity stand-in for the data-area decrypt parameter of read. -/
def decId : Nat → Nat → List Nat → List Nat :=
  fun _ _ b => b

/-- Always-successful stand-in for the filesystem constructor. -/
def fsOk : MountedVolume → Option Nat := fun _ => some 0

/-- Always-failing stand-in for the filesystem constructor, modelling
a backing store whose data area does not parse as a FAT filesystem. -/
def fsFail : MountedVolume → Option Nat := fun _ => none

/-- First 60 bytes of the region 64..252 of a concrete decrypted
header: magic VERA, version and minimum version zero, the big-endian
CRC-32 of 256 zero bytes (the field at 72..76, value 227968344), 16
reserved and 16 size bytes of zero, master_key_scope_offset 1024,
master_key_scope_size 2048. -/
def bodyHead : List Nat :=
  veraMagic ++ [0, 0, 0, 0] ++ [13, 150, 133, 88] ++ List.replicate 32 0 ++
    [0, 0, 0, 0, 0, 0, 4, 0] ++ [0, 0, 0, 0, 0, 0, 8, 0]

/-- The full region 64..252 of the concrete decrypted header: bodyHead
followed by flags 0, sector_size 0, and 120 reserved zero bytes. -/
def bodyA : List Nat := bodyHead ++ List.replicate 128 0

/-- A concrete 512-byte header that passes all three mount checks yet
carries sector_size = 0, master_key_scope_offset = 1024 and
master_key_scope_size = 2048: zero salt, bodyA, the big-endian CRC-32
of bodyA (value 962057557) as the field at 252..256, and 256 zero
bytes (whose CRC-32 is the field stored inside bodyHead). -/
def headerBytes : List Nat :=
  List.replicate 64 0 ++ bodyA ++ [57, 87, 213, 85] ++ List.replicate 256 0

/-- A 2048-byte backing store starting with headerBytes.  Under the
identity decrypt stand-in its decrypted header is headerBytes itself,
so mount accepts it although sector_size is 0 and
master_key_scope_offset + master_key_scope_size = 3072 exceeds the
backing length 2048. -/
def badDisk : List Nat := headerBytes ++ List.replicate 1536 0

/-- The VolumeHeader that decoding headerBytes yields. -/
def badHeader : VolumeHeader :=
  { salt := List.replicate 64 0
  , version := 0
  , minimumProgramVersion := 0
  , masterKeyCrc := 227968344
  , hiddenVolumeSize := 0
  , volumeSize := 0
  , masterKeyScopeOffset := 1024
  , masterKeyScopeSize := 2048
  , flags := 0
  , sectorSize := 0
  , headerChecksum := 962057557
  , masterKeys := List.replicate 64 0 }

/-- The mounted volume mount builds from badDisk. -/
def badVol : MountedVolume :=
  { header := badHeader
  , key1 := List.replicate 32 0
  , key2 := List.replicate 32 0
  , pos := 1024 }

/-- A backing store of four 512-byte sectors with pairwise distinct
constant contents 1, 2, 3, 4, used to observe where read places each
decrypted sector in the caller buffer. -/
def c2disk : List Nat :=
  List.replicate 512 1 ++ (List.replicate 512 2 ++ (List.replicate 512 3 ++ List.replicate 512 4))

/-! Helper lemmas: list bookkeeping for the concrete evaluations.  The
long concrete buffers cannot be forced in a single kernel descent, so
lengths and slices are computed symbolically. -/

theorem listCopy_nil (dst : List Nat) (off : Nat) : listCopy dst off [] = dst := by
  simp [listCopy]

set_option maxRecDepth 100000 in
theorem headerBytes_length : headerBytes.length = 512 := by
  simp [headerBytes, bodyA, bodyHead, veraMagic]

set_option maxRecDepth 100000 in
theorem badDisk_length : badDisk.length = 2048 := by
  simp [badDisk, headerBytes, bodyA, bodyHead, veraMagic]

set_option maxRecDepth 100000 in
theorem c2disk_length : c2disk.length = 2048 := by
  simp [c2disk]

theorem repLen (n a : Nat) : (List.replicate n a).length = n := List.length_replicate n a

theorem c2slice0 : (c2disk.drop 0).take 512 = List.replicate 512 1 := by
  rw [c2disk, List.drop_zero, List.take_left' (repLen 512 1)]

theorem c2slice1 : (c2disk.drop 512).take 512 = List.replicate 512 2 := by
  rw [c2disk, List.drop_left' (repLen 512 1), List.take_left' (repLen 512 2)]

theorem c2slice2 : (c2disk.drop 1024).take 512 = List.replicate 512 3 := by
  rw [c2disk, show (1024 : Nat) = 512 + 512 from rfl, ← List.drop_drop,
    List.drop_left' (repLen 512 1), List.drop_left' (repLen 512 2),
    List.take_left' (repLen 512 3)]

theorem c2slice3 : (c2disk.drop 1536).take 512 = List.replicate 512 4 := by
  rw [c2disk, show (1536 : Nat) = (512 + 512) + 512 from rfl, ← List.drop_drop,
    ← List.drop_drop, List.drop_left' (repLen 512 1), List.drop_left' (repLen 512 2),
    List.drop_left' (repLen 512 3), List.take_replicate]
  simp

theorem c2take0 : c2disk.take 512 = List.replicate 512 1 := by
  rw [c2disk, List.take_left' (repLen 512 1)]

theorem drop_rep_append (m a : Nat) (l : List Nat) :
    (List.replicate m a ++ l).drop m = l :=
  List.drop_left' (repLen m a)

theorem drop1024_pair (a b : Nat) :
    List.drop 1024 (List.replicate 512 a ++ List.replicate 1536 b) = List.replicate 1024 b := by
  rw [show (1024 : Nat) = 512 + 512 from rfl, ← List.drop_drop, drop_rep_append,
    List.drop_replicate]

theorem drop1024_triple (a b c : Nat) :
    List.drop 1024 (List.replicate 512 a ++ (List.replicate 512 b ++ List.replicate 1024 c)) =
      List.replicate 1024 c := by
  rw [show (1024 : Nat) = 512 + 512 from rfl, ← List.drop_drop, drop_rep_append,
    drop_rep_append]

/-! CRC-32 values of the concrete header regions, computed in 32-byte
stages so that no single kernel reduction is too deep. -/

theorem crcFold_append (c : Nat) (xs ys : List Nat) :
    crcFold c (xs ++ ys) = crcFold (crcFold c xs) ys := by
  simp [crcFold, List.foldl_append]

set_option maxRecDepth 30000 in
theorem crcZ1 : crcFold 4294967295 (List.replicate 32 0) = 3874859602 := by decide

set_option maxRecDepth 30000 in
theorem crcZ2 : crcFold 3874859602 (List.replicate 32 0) = 2322767049 := by decide

set_option maxRecDepth 30000 in
theorem crcZ3 : crcFold 2322767049 (List.replicate 32 0) = 1158388305 := by decide

set_option maxRecDepth 30000 in
theorem crcZ4 : crcFold 1158388305 (List.replicate 32 0) = 1029113186 := by decide

set_option maxRecDepth 30000 in
theorem crcZ5 : crcFold 1029113186 (List.replicate 32 0) = 1442360476 := by decide

set_option maxRecDepth 30000 in
theorem crcZ6 : crcFold 1442360476 (List.replicate 32 0) = 1946220301 := by decide

set_option maxRecDepth 30000 in
theorem crcZ7 : crcFold 1946220301 (List.replicate 32 0) = 3269371036 := by decide

set_option maxRecDepth 30000 in
theorem crcZ8 : crcFold 3269371036 (List.replicate 32 0) = 4066998951 := by decide

set_option maxRecDepth 30000 in
theorem crc32_zeros256 : crc32 (List.replicate 256 0) = 227968344 := by
  have h : List.replicate 256 (0 : Nat) =
      List.replicate 32 0 ++ (List.replicate 32 0 ++ (List.replicate 32 0 ++ (List.replicate 32 0 ++
        (List.replicate 32 0 ++ (List.replicate 32 0 ++ (List.replicate 32 0 ++
          List.replicate 32 0)))))) := by decide
  rw [crc32, h, crcFold_append, crcFold_append, crcFold_append, crcFold_append, crcFold_append,
    crcFold_append, crcFold_append, crcZ1, crcZ2, crcZ3, crcZ4, crcZ5, crcZ6, crcZ7, crcZ8]
  decide

set_option maxRecDepth 30000 in
theorem crcB1 : crcFold 4294967295
    [86, 69, 82, 65, 0, 0, 0, 0, 13, 150, 133, 88, 0, 0, 0, 0, 0, 0, 0, 0, 0, 0, 0, 0, 0, 0, 0,
      0, 0, 0, 0, 0] = 3140292907 := by decide

set_option maxRecDepth 30000 in
theorem crcB2 : crcFold 3140292907
    [0, 0, 0, 0, 0, 0, 0, 0, 0, 0, 0, 0, 0, 0, 0, 0, 0, 0, 4, 0, 0, 0, 0, 0, 0, 0, 8, 0] =
    2206467752 := by decide

set_option maxRecDepth 30000 in
theorem crcB3 : crcFold 2206467752 (List.replicate 32 0) = 2639764056 := by decide

set_option maxRecDepth 30000 in
theorem crcB4 : crcFold 2639764056 (List.replicate 32 0) = 1032218408 := by decide

set_option maxRecDepth 30000 in
theorem crcB5 : crcFold 1032218408 (List.replicate 32 0) = 2346262185 := by decide

set_option maxRecDepth 30000 in
theorem crcB6 : crcFold 2346262185 (List.replicate 32 0) = 3332909738 := by decide

set_option maxRecDepth 30000 in
theorem crc32_bodyA : crc32 bodyA = 962057557 := by
  have h : bodyA =
      [86, 69, 82, 65, 0, 0, 0, 0, 13, 150, 133, 88, 0, 0, 0, 0, 0, 0, 0, 0, 0, 0, 0, 0, 0, 0,
        0, 0, 0, 0, 0, 0] ++
      ([0, 0, 0, 0, 0, 0, 0, 0, 0, 0, 0, 0, 0, 0, 0, 0, 0, 0, 4, 0, 0, 0, 0, 0, 0, 0, 8, 0] ++
        (List.replicate 32 0 ++ (List.replicate 32 0 ++ (List.replicate 32 0 ++
          List.replicate 32 0)))) := by decide
  rw [crc32, h, crcFold_append, crcFold_append, crcFold_append, crcFold_append, crcFold_append,
    crcB1, crcB2, crcB3, crcB4, crcB5, crcB6]
  decide

/-- The mounted volume mount builds when all checks pass. -/
def mountVolOf (pb : List Nat → List Nat → Nat → Nat → List Nat)
    (xd : List Nat → List Nat → List Nat → Nat → Nat → List Nat)
    (disk : List Nat) (password : List Nat) : MountedVolume :=
  let header := decodeUnchecked (decryptedHeaderBytes pb xd disk password)
  { header := header
  , key1 := header.masterKeys.take 32
  , key2 := header.masterKeys.drop 32
  , pos := header.masterKeyScopeOffset }

/-- The decrypted buffer written out as mount computes it. -/
theorem decryptedHeaderBytes_def (pb : List Nat → List Nat → Nat → Nat → List Nat)
    (xd : List Nat → List Nat → List Nat → Nat → Nat → List Nat)
    (disk password : List Nat) :
    (disk.take 512).take 64 ++
        xd ((pb password ((disk.take 512).take 64) 500000 64).take 32)
          ((pb password ((disk.take 512).take 64) 500000 64).drop 32)
          ((disk.take 512).drop 64) 448 0 =
      decryptedHeaderBytes pb xd disk password := rfl

theorem mount_short (pb : List Nat → List Nat → Nat → Nat → List Nat)
    (xd : List Nat → List Nat → List Nat → Nat → Nat → List Nat)
    (fsN : MountedVolume → Option Nat) (disk password : List Nat)
    (h : disk.length < 512) :
    mount pb xd fsN disk password = .err .invalidVolume := by
  simp [mount, h]

theorem mount_invalid_key_of (pb : List Nat → List Nat → Nat → Nat → List Nat)
    (xd : List Nat → List Nat → List Nat → Nat → Nat → List Nat)
    (fsN : MountedVolume → Option Nat) (disk password : List Nat)
    (h : 512 ≤ disk.length)
    (hbad : ¬ headerChecks (decryptedHeaderBytes pb xd disk password)) :
    mount pb xd fsN disk password = .err .invalidKey := by
  simp only [headerChecks, not_and_or] at hbad
  simp only [mount]
  rw [if_neg (Nat.not_lt.mpr h)]
  simp only [decryptedHeaderBytes_def]
  rcases hbad with hm | h1 | h2
  · rw [if_pos hm]
  · by_cases hm : ((decryptedHeaderBytes pb xd disk password).drop 64).take 4 = veraMagic
    · rw [if_neg (not_not_intro hm), if_pos h1]
    · rw [if_pos hm]
  · by_cases hm : ((decryptedHeaderBytes pb xd disk password).drop 64).take 4 = veraMagic
    · by_cases hc1 : ((decryptedHeaderBytes pb xd disk password).drop 72).take 4 =
          be32 (crc32 (((decryptedHeaderBytes pb xd disk password).drop 256).take 256))
      · rw [if_neg (not_not_intro hm), if_neg (not_not_intro hc1), if_pos h2]
      · rw [if_neg (not_not_intro hm), if_pos hc1]
    · rw [if_pos hm]

theorem mount_success (pb : List Nat → List Nat → Nat → Nat → List Nat)
    (xd : List Nat → List Nat → List Nat → Nat → Nat → List Nat)
    (fsN : MountedVolume → Option Nat) (disk password : List Nat)
    (h : 512 ≤ disk.length)
    (hok : headerChecks (decryptedHeaderBytes pb xd disk password)) :
    mount pb xd fsN disk password =
      match fsN (mountVolOf pb xd disk password) with
      | none => MRes.panicked
      | some fsId => MRes.ok (fsId, mountVolOf pb xd disk password) := by
  obtain ⟨hm, h1, h2⟩ := hok
  simp only [mount, VolumeHeader.decode]
  rw [if_neg (Nat.not_lt.mpr h)]
  simp only [decryptedHeaderBytes_def]
  rw [if_neg (not_not_intro hm), if_neg (not_not_intro h1), if_neg (not_not_intro h2),
    if_pos hm]
  rfl

set_option maxRecDepth 100000 in
theorem decryptedBad : decryptedHeaderBytes pbId xdId badDisk [] = headerBytes := by decide

set_option maxRecDepth 100000 in
theorem badSliceMagic : (headerBytes.drop 64).take 4 = veraMagic := by decide

set_option maxRecDepth 100000 in
theorem badSliceCrc1Field : (headerBytes.drop 72).take 4 = [13, 150, 133, 88] := by decide

set_option maxRecDepth 100000 in
theorem badSliceCrc1Region : (headerBytes.drop 256).take 256 = List.replicate 256 0 := by decide

set_option maxRecDepth 100000 in
theorem badSliceCrc2Field : (headerBytes.drop 252).take 4 = [57, 87, 213, 85] := by decide

set_option maxRecDepth 100000 in
theorem badSliceCrc2Region : (headerBytes.drop 64).take 188 = bodyA := by decide

theorem badHeaderChecks : headerChecks headerBytes := by
  refine ⟨badSliceMagic, ?_, ?_⟩
  · rw [badSliceCrc1Region, crc32_zeros256, badSliceCrc1Field]; decide
  · rw [badSliceCrc2Region, crc32_bodyA, badSliceCrc2Field]; decide

set_option maxRecDepth 100000 in
theorem badDecode : decodeUnchecked headerBytes = badHeader := by decide

theorem badMountVol : mountVolOf pbId xdId badDisk [] = badVol := by
  simp only [mountVolOf, decryptedBad, badDecode]
  decide

theorem mount_badDisk_ok : mount pbId xdId fsOk badDisk [] = MRes.ok (0, badVol) := by
  rw [mount_success pbId xdId fsOk badDisk [] (by simp [badDisk_length])
    (decryptedBad ▸ badHeaderChecks), badMountVol]
  rfl

theorem headerChecks_not_iff (dh : List Nat) :
    ¬ headerChecks dh ↔
      ((dh.drop 64).take 4 ≠ veraMagic ∨
        (dh.drop 72).take 4 ≠ be32 (crc32 ((dh.drop 256).take 256)) ∨
        (dh.drop 252).take 4 ≠ be32 (crc32 ((dh.drop 64).take 188))) := by
  simp only [headerChecks, not_and_or]

/-- C3: mount fails with InvalidKey exactly when, on the decrypted header,
the magic at 64..68 differs from VERA, or the CRC-32 over 256..512 differs
from the big-endian field at 72..76, or the CRC-32 over 64..252 differs
from the big-endian field at 252..256; the three causes yield the same
error value, and passing the magic alone never suffices. -/
theorem c3_invalid_key_iff (pb : List Nat → List Nat → Nat → Nat → List Nat)
    (xd : List Nat → List Nat → List Nat → Nat → Nat → List Nat)
    (fsN : MountedVolume → Option Nat) (disk password : List Nat)
    (h : 512 ≤ disk.length) :
    mount pb xd fsN disk password = MRes.err VcError.invalidKey ↔
      (((decryptedHeaderBytes pb xd disk password).drop 64).take 4 ≠ veraMagic ∨
        ((decryptedHeaderBytes pb xd disk password).drop 72).take 4 ≠
          be32 (crc32 (((decryptedHeaderBytes pb xd disk password).drop 256).take 256)) ∨
        ((decryptedHeaderBytes pb xd disk password).drop 252).take 4 ≠
          be32 (crc32 (((decryptedHeaderBytes pb xd disk password).drop 64).take 188))) := by
  rw [← headerChecks_not_iff]
  constructor
  · intro heq
    by_contra hok
    rw [mount_success pb xd fsN disk password h hok] at heq
    cases hfs : fsN (mountVolOf pb xd disk password) <;> rw [hfs] at heq <;> exact absurd heq (by simp)
  · exact mount_invalid_key_of pb xd fsN disk password h

theorem c3_witness :
    mount pbId xdId fsOk (List.replicate 512 0) [] = MRes.err VcError.invalidKey ↔
      (((decryptedHeaderBytes pbId xdId (List.replicate 512 0) []).drop 64).take 4 ≠ veraMagic ∨
        ((decryptedHeaderBytes pbId xdId (List.replicate 512 0) []).drop 72).take 4 ≠
          be32 (crc32 (((decryptedHeaderBytes pbId xdId (List.replicate 512 0) []).drop 256).take 256)) ∨
        ((decryptedHeaderBytes pbId xdId (List.replicate 512 0) []).drop 252).take 4 ≠
          be32 (crc32 (((decryptedHeaderBytes pbId xdId (List.replicate 512 0) []).drop 64).take 188))) :=
  c3_invalid_key_iff pbId xdId fsOk (List.replicate 512 0) [] (le_of_eq (repLen 512 0).symm)

/-- C4: the header path of mount uses bytes 0..64 as the PBKDF2 salt,
derives exactly 64 bytes at exactly 500000 iterations, splits the derived
key at 32 into the two header XTS keys, and decrypts bytes 64..512 as a
single 448-byte data unit with starting index 0. -/
theorem c4_mount_follows_spec (pb : List Nat → List Nat → Nat → Nat → List Nat)
    (xd : List Nat → List Nat → List Nat → Nat → Nat → List Nat)
    (fsN : MountedVolume → Option Nat) (disk password : List Nat) :
    mount pb xd fsN disk password = mountSpec pb xd fsN disk password := by
  simp only [mount, mountSpec]
  by_cases h : disk.length < 512
  · rw [if_pos h, if_pos h]
  · rw [if_neg h, if_neg h]
    have e1 : (disk.take 512).take 64 = disk.take 64 := by
      rw [List.take_take, show (64 : Nat) ⊓ 512 = 64 from rfl]
    have e2 : (disk.take 512).drop 64 = (disk.drop 64).take 448 := by
      rw [List.drop_take, show (512 - 64 : Nat) = 448 from rfl]
    rw [e1, e2]

/-- C7: Start n seeks the backing store to offset + n, End n to
offset + size - n (n subtracted from the end), Current n to pos + n, and
the returned value is the new backing position minus offset, i.e. the new
logical position; stated under range conditions that keep the u64 and i64
casts of the source value-preserving. -/
theorem c7_seek_semantics (offset size pos : Nat) (w : SeekWhence)
    (h : seekPre offset size pos w) :
    seekImpl offset size pos w =
      ((seekTarget offset size pos w - offset).toNat, (seekTarget offset size pos w).toNat) := by
  cases w with
  | start n =>
    simp only [seekPre] at h
    simp only [seekImpl, seekTarget, asU64]
    rw [Nat.mod_eq_of_lt (by omega)]
    simp only [Prod.mk.injEq]
    constructor <;> [skip; omega]
    omega
  | fromEnd n =>
    obtain ⟨h1, h2, h3⟩ := h
    simp only [seekImpl, seekTarget, asI64, asU64]
    rw [Nat.mod_eq_of_lt (by omega), if_pos (by omega)]
    simp only [Prod.mk.injEq]
    constructor <;> omega
  | current n =>
    obtain ⟨h1, h2, h3⟩ := h
    simp only [seekImpl, seekTarget, asI64, asU64]
    rw [if_pos (by omega)]
    simp only [Prod.mk.injEq]
    constructor <;> omega

theorem c7_witness : seekImpl 512 1024 600 (SeekWhence.fromEnd 8) = (1016, 1528) :=
  (c7_seek_semantics 512 1024 600 (SeekWhence.fromEnd 8) (by decide)).trans (by decide)

set_option maxRecDepth 100000 in
/-- C1: a read of 1024 bytes at backing position 512 (a sector boundary,
sector size 512) spans the two consecutive sectors 1 and 2, yet the
decrypt-call trace shows both scratch buffers decrypted with data unit
index 1 - the source computes current_pos / sector_size once, outside the
loop, so every sector of a multi-sector read reuses the first tweak index
instead of using s0 + i for the i-th sector as the claim states. -/
theorem c1_tweak_index_reused :
    readImpl decId 512 (List.replicate 1536 0) 512 (List.replicate 1024 5) =
      RRes.ok ⟨512, List.replicate 512 0 ++ List.replicate 512 5, 1536, [(512, 1), (512, 1)]⟩ := by
  simp only [readImpl, List.length_replicate]
  norm_num
  rw [show List.range 2 = [0, 1] from rfl]
  rw [readLoop, List.length_replicate]
  norm_num
  simp only [decId, List.take_replicate, listCopy, List.take_zero, List.nil_append,
    List.drop_replicate, List.length_replicate]
  norm_num
  rw [readLoop, List.length_replicate]
  norm_num
  rw [listCopy_nil, readLoop]

set_option maxRecDepth 100000 in
/-- C2: a read of 2048 bytes at backing position 0 over four sectors with
pairwise distinct contents 1, 2, 3, 4 returns 512 instead of 2048, copies
the third sector over the slot of the second (bytes_written is never
advanced for middle sectors), and copies nothing from the final sector
(the (o+L) mod S = 0 case transfers 0 bytes instead of a whole sector),
leaving the second half of the caller buffer untouched at the sentinel
value 255. -/
theorem c2_copy_and_return_value :
    readImpl decId 512 c2disk 0 (List.replicate 2048 255) =
      RRes.ok ⟨512, List.replicate 512 1 ++ (List.replicate 512 3 ++ List.replicate 1024 255),
        2048, [(512, 0), (512, 0), (512, 0), (512, 0)]⟩ := by
  simp only [readImpl, List.length_replicate]
  norm_num
  rw [show List.range 4 = [0, 1, 2, 3] from rfl]
  rw [readLoop, c2disk_length]
  rw [if_neg (show ¬((2048 : Nat) < 0 + 512) from by norm_num)]
  rw [if_neg (show ¬((512 : Nat) = 0) from by norm_num)]
  rw [if_pos (show (0 : Nat) = 0 from rfl)]
  simp only [decId, List.drop_zero, Nat.sub_zero, Nat.zero_add, Nat.add_zero, Nat.zero_div,
    List.nil_append, List.take_take]
  norm_num [c2take0]
  simp only [listCopy, List.take_zero, List.nil_append, List.length_replicate,
    List.drop_replicate]
  norm_num
  rw [readLoop, c2disk_length]
  rw [if_neg (show ¬((2048 : Nat) < 512 + 512) from by norm_num)]
  rw [if_neg (show ¬((512 : Nat) = 0) from by norm_num)]
  rw [if_neg (show ¬((1 : Nat) = 0) from by norm_num)]
  rw [if_neg (show ¬((1 : Nat) = 4 - 1) from by norm_num)]
  simp only [List.length_append, List.length_replicate]
  rw [if_neg (show ¬((512 + 1536 : Nat) < 512 + 512) from by norm_num)]
  rw [c2slice1]
  simp only [decId, List.take_replicate, listCopy, List.length_replicate]
  norm_num
  rw [drop1024_pair]
  rw [readLoop, c2disk_length]
  rw [if_neg (show ¬((2048 : Nat) < 1024 + 512) from by norm_num)]
  rw [if_neg (show ¬((512 : Nat) = 0) from by norm_num)]
  rw [if_neg (show ¬((2 : Nat) = 0) from by norm_num)]
  rw [if_neg (show ¬((2 : Nat) = 4 - 1) from by norm_num)]
  simp only [List.length_append, List.length_replicate]
  rw [if_neg (show ¬((512 + (512 + 1024) : Nat) < 512 + 512) from by norm_num)]
  rw [c2slice2]
  simp only [decId, List.take_replicate, listCopy, List.length_replicate]
  norm_num
  rw [drop1024_triple]
  rw [readLoop, c2disk_length]
  rw [if_neg (show ¬((2048 : Nat) < 1536 + 512) from by norm_num)]
  rw [if_neg (show ¬((512 : Nat) = 0) from by norm_num)]
  rw [if_neg (show ¬((3 : Nat) = 0) from by norm_num)]
  rw [if_pos (show (3 : Nat) = 4 - 1 from by norm_num)]
  norm_num
  rw [listCopy_nil, readLoop]

set_option maxRecDepth 100000 in
/-- C9: a zero-length read at the unaligned backing position 100 returns
0 bytes as the claim states, but it still reads one full sector: the
backing position afterwards is 512 (the next data unit boundary), not
100, and one decrypt_area call is issued - the loop bound counts one data
unit because the intra-sector offset is nonzero even though the caller
buffer is empty. -/
theorem c9_zero_length_read_advances :
    readImpl decId 512 (List.replicate 1024 3) 100 [] =
      RRes.ok ⟨0, [], 512, [(512, 0)]⟩ := by
  simp only [readImpl, List.length_nil]
  norm_num
  rw [show List.range 1 = [0] from rfl]
  rw [readLoop, List.length_replicate]
  norm_num
  simp only [decId, listCopy, List.take_zero, List.nil_append, List.drop_nil, List.take_nil,
    List.append_nil]
  rw [readLoop]

/-- C6: write ignores its buffer entirely: on any state it returns Ok(1)
and leaves the backing store and position untouched, so a 4-byte write
neither performs the read-modify-write of the affected sector nor
advances the position by 4. -/
theorem c6_write_is_stub :
    writeImpl ⟨List.replicate 2048 0, 1024⟩ [9, 9, 9, 9] =
        (1, ⟨List.replicate 2048 0, 1024⟩) ∧
      (writeImpl ⟨List.replicate 2048 0, 1024⟩ [9, 9, 9, 9]).1 ≠ [9, 9, 9, 9].length :=
  ⟨rfl, by decide⟩

/-- C5 counterexample: badDisk mounts successfully although its decrypted
header has sector_size = 0 (violating sector_size > 0 and divisibility)
and master_key_scope_offset + master_key_scope_size = 3072 exceeding the
2048-byte backing store - mount performs no such validation. -/
theorem c5_counterexample :
    mount pbId xdId fsOk badDisk [] = MRes.ok (0, badVol) ∧
      badVol.header.sectorSize = 0 ∧
      badVol.header.masterKeyScopeOffset + badVol.header.masterKeyScopeSize = 3072 ∧
      badDisk.length = 2048 :=
  ⟨mount_badDisk_ok, rfl, rfl, badDisk_length⟩

/-- C5 amended: mount validates only the magic and the two CRC fields;
any 512-byte-or-longer backing store whose decrypted header passes those
three checks is accepted, with no constraint on sector_size or on the
master-key scope bounds. -/
theorem c5_mount_checks_only_magic_and_crcs
    (pb : List Nat → List Nat → Nat → Nat → List Nat)
    (xd : List Nat → List Nat → List Nat → Nat → Nat → List Nat)
    (disk password : List Nat) (h : 512 ≤ disk.length)
    (hok : headerChecks (decryptedHeaderBytes pb xd disk password)) :
    (mount pb xd fsOk disk password).isOk = true := by
  rw [mount_success pb xd fsOk disk password h hok]
  rfl

theorem c5_witness : (mount pbId xdId fsOk badDisk []).isOk = true :=
  c5_mount_checks_only_magic_and_crcs pbId xdId badDisk []
    (by simp [badDisk_length]) (decryptedBad ▸ badHeaderChecks)

/-- C8 counterexample: on a backing store whose header passes every
check but whose data area the filesystem constructor rejects, mount
panics (the source unwraps fatfs::FileSystem::new) instead of returning
an error of the taxonomy. -/
theorem c8_counterexample : mount pbId xdId fsFail badDisk [] = MRes.panicked := by
  rw [mount_success pbId xdId fsFail badDisk [] (by simp [badDisk_length])
    (decryptedBad ▸ badHeaderChecks)]
  rfl

/-- C8 amended: failures of the steps before the filesystem construction
are returned as their specific error kinds (short header read:
InvalidVolume; failed magic or CRC check: InvalidKey), with no retry or
recovery, but a failure of the final fatfs construction panics via
unwrap instead of being returned to the caller. -/
theorem c8_error_kinds (pb : List Nat → List Nat → Nat → Nat → List Nat)
    (xd : List Nat → List Nat → List Nat → Nat → Nat → List Nat)
    (disk password : List Nat) :
    (disk.length < 512 → mount pb xd fsFail disk password = MRes.err VcError.invalidVolume) ∧
      (512 ≤ disk.length → ¬ headerChecks (decryptedHeaderBytes pb xd disk password) →
        mount pb xd fsFail disk password = MRes.err VcError.invalidKey) ∧
      (512 ≤ disk.length → headerChecks (decryptedHeaderBytes pb xd disk password) →
        mount pb xd fsFail disk password = MRes.panicked) := by
  refine ⟨fun h => mount_short pb xd fsFail disk password h,
    fun h hbad => mount_invalid_key_of pb xd fsFail disk password h hbad,
    fun h hok => ?_⟩
  rw [mount_success pb xd fsFail disk password h hok]
  rfl

theorem c8_witness :
    mount pbId xdId fsFail (List.replicate 512 0) [] = MRes.err VcError.invalidKey :=
  (c8_error_kinds pbId xdId (List.replicate 512 0) []).2.1
    (le_of_eq (repLen 512 0).symm) (by decide)

/-- C10: mount accepts badDisk whose otherwise-valid header carries
sector_size = 0 (the header checks never inspect that field), and a
1-byte read on the resulting volume reaches the division
current_pos / sector_size with a zero divisor and panics. -/
theorem c10_sector_size_zero_mounts_and_read_panics :
    mount pbId xdId fsOk badDisk [] = MRes.ok (0, badVol) ∧
      badVol.header.sectorSize = 0 ∧
      readImpl decId badVol.header.sectorSize badDisk badVol.pos [0] = RRes.panicked := by
  refine ⟨mount_badDisk_ok, rfl, ?_⟩
  show readLoop decId badDisk 0 1024 0 1 1 1 (List.range 1) 1024 0 [0] [] = RRes.panicked
  rw [show List.range 1 = [0] from rfl]
  rw [readLoop]
  rw [badDisk_length]
  norm_num
